import Mathlib

/-!
Verification of the preset-resolution and build-driver subsystem of the
cppforge CLI (src/cppforge/generate.py) and of its configuration merging
(src/cppforge/config.py), as a shallow embedding in Lean.

Filesystem and subprocess state is abstracted into an `Env` record; the
observable behaviour of each operation is its trace of console/filesystem/
subprocess effects together with a Python-style result (normal return,
uncaught exception, or process exit).  Strings are handled through
character-list primitives mirroring the Python string methods the code
uses, so that every definition evaluates on concrete inputs.  The text of
a JSON parse-error message is abstracted (the code never inspects it);
all other console messages are the source's literal f-string expansions.
-/

namespace CppForge

/-! ## Python string primitives -/

/-- The ASCII whitespace characters of Python's `str.split()` / `str.strip()`. -/
def isWsChar (c : Char) : Bool :=
  c = ' ' || c = '\t' || c = '\n' || c = '\r' || c = '\x0b' || c = '\x0c'

/-- ASCII lower-casing of one character (`str.lower()` on the alphabet the
code compares against). -/
def lowerCh (c : Char) : Char :=
  if 65 ≤ c.toNat && c.toNat ≤ 90 then Char.ofNat (c.toNat + 32) else c

/-- Does the first list start with the second? -/
def listStarts : List Char → List Char → Bool
  | _, [] => true
  | [], _ :: _ => false
  | a :: l, b :: p => a = b && listStarts l p

/-- Contiguous-sublist search: Python's `pat in s`. -/
def listHas (pat : List Char) : List Char → Bool
  | [] => pat.isEmpty
  | c :: rest => listStarts (c :: rest) pat || listHas pat rest

/-- Split a character list at every character satisfying `p`
(Python-style: separators at the ends produce empty pieces). -/
def splitIfCh (p : Char → Bool) : List Char → List (List Char)
  | [] => [[]]
  | c :: rest =>
    match splitIfCh p rest with
    | h :: t => if p c then [] :: h :: t else (c :: h) :: t
    | [] => [[c]]

/-- Drop whitespace from both ends (Python `str.strip()`). -/
def trimCh (cs : List Char) : List Char :=
  ((cs.dropWhile isWsChar).reverse.dropWhile isWsChar).reverse

/-- Python's `sub in s` substring test. -/
def pyIn (sub s : String) : Bool := listHas sub.data s.data

/-- Python's `s.lower()`. -/
def pyLower (s : String) : String := ⟨s.data.map lowerCh⟩

/-- Python's `s.strip()`. -/
def pyStrip (s : String) : String := ⟨trimCh s.data⟩

/-- Python's `s.split(sep)` for a one-character separator (the only kind the
code uses: `")"` and `"/"`). -/
def pySplit (s : String) (sep : Char) : List String :=
  (splitIfCh (fun c => c = sep) s.data).map (fun cs => ⟨cs⟩)

/-- Python's `s.split()`: split on whitespace runs, dropping empty pieces. -/
def pySplitWs (s : String) : List String :=
  ((splitIfCh isWsChar s.data).filter (fun cs => cs ≠ [])).map (fun cs => ⟨cs⟩)

/-- Python's `s[n:]` for character index `n`. -/
def pyDrop (s : String) (n : Nat) : String := ⟨s.data.drop n⟩

/-- Python's `s.startswith(pre)`. -/
def pyStarts (s pre : String) : Bool := listStarts s.data pre.data

/-! ## Data model: presets, exceptions, effects, environment -/

/-- A parsed JSON preset object: an association list of string fields (the
fields the code reads — `name`, `generator`, `buildDir`, `binaryDir` — are
all strings). -/
abbrev Preset := List (String × String)

/-- Python `preset.get(k)` / `preset[k]` lookup. -/
def pget (p : Preset) (k : String) : Option String :=
  p.lookup k

/-- A parsed CMakePresets.json document: the two top-level fields the code
reads, each present or absent. -/
structure PresetDocument where
  presets : Option (List Preset)
  configurePresets : Option (List Preset)

/-- Python exceptions the subsystem can raise.  `jsonDecodeError` models
`json.JSONDecodeError`, which is a subclass of `ValueError`. -/
inductive PyExc where
  | keyError
  | jsonDecodeError
  | fileNotFoundError (msg : String)
  | valueError (msg : String)
  | calledProcessError
deriving DecidableEq, Repr

/-- Which exceptions `except (FileNotFoundError, ValueError)` catches:
`json.JSONDecodeError` is caught because it subclasses `ValueError`. -/
def caughtByReaders : PyExc → Bool
  | .fileNotFoundError _ => true
  | .valueError _ => true
  | .jsonDecodeError => true
  | _ => false

/-- The message `str(e)` printed by an `except ... as e: print(f"Error: {e}")`
handler (the parse-error text is abstracted). -/
def excText : PyExc → String
  | .keyError => "KeyError"
  | .jsonDecodeError => "Expecting value"
  | .fileNotFoundError m => m
  | .valueError m => m
  | .calledProcessError => "CalledProcessError"

/-- How a Python call ends: normal value, `sys.exit(code)`, or an uncaught
exception propagating. -/
inductive PyResult (α : Type) where
  | ok (a : α)
  | exit (code : Nat)
  | raised (e : PyExc)
deriving DecidableEq, Repr

/-- One observable interaction of an operation with the outside world:
a console message, a directory creation, a subprocess invocation (`check`
records whether a non-zero exit raises), the opening of the project
descriptor for parsing, and the `is_file` test on a candidate executable. -/
inductive Effect where
  | print (s : String)
  | mkdir (path : String)
  | subproc (cmd : List String) (check : Bool)
  | readDescriptor (path : String)
  | checkFile (path : String)
deriving DecidableEq, Repr

/-- The ambient world: the presets document (`none` = file missing,
`some none` = present but malformed, `some (some d)` = parses to `d`),
the CMakeLists.txt lines (`none` = file missing), directory and file
existence, and the exit status each subprocess command would return. -/
structure Env where
  presetsFile : Option (Option PresetDocument)
  cmakeLists : Option (List String)
  dirExists : String → Bool
  isFile : String → Bool
  subprocExit : List String → Int

/-- Python `f"{v}"` of an optional string (`None` prints as "None"). -/
def pyStr (o : Option String) : String :=
  o.getD "None"

/-! ## generate.py: preset lookup -/

/-- The scan `for preset in presets: if preset["name"] == preset_name` of
`find_cmake_presets`: a missing `name` key raises `KeyError`. -/
def findScan : List Preset → String → PyResult (Option Preset)
  | [], _ => .ok none
  | p :: rest, nm =>
    match pget p "name" with
    | none => .raised .keyError
    | some n => if n = nm then .ok (some p) else findScan rest nm

/-- `find_cmake_presets` (generate.py lines 8–28): locate a preset for the
generate/configure path.  Reads field `presets`, falling back to
`configurePresets` only when the key `presets` is absent (that is the
semantics of `cmake_presets.get("presets", cmake_presets.get("configurePresets", []))`);
prints and calls `sys.exit(1)` when the document or the preset is missing. -/
def find_cmake_presets (env : Env) (json_path preset_name : String) :
    List Effect × PyResult Preset :=
  match env.presetsFile with
  | none => ([.print s!"Error: {json_path} not found!"], .exit 1)
  | some none => ([], .raised .jsonDecodeError)
  | some (some doc) =>
    let presets := match doc.presets with
      | some ps => ps
      | none => doc.configurePresets.getD []
    match findScan presets preset_name with
    | .raised e => ([], .raised e)
    | .exit c => ([], .exit c)
    | .ok (some p) => ([], .ok p)
    | .ok none =>
      ([.print s!"Error: Preset '{preset_name}' not found in {json_path}."], .exit 1)

/-- The scan `if preset.get("name") == preset_name` of `read_preset_data`:
a preset without a `name` key is skipped, not an error. -/
def readScan : List Preset → String → Option Preset
  | [], _ => none
  | p :: rest, nm => if pget p "name" = some nm then some p else readScan rest nm

/-- `read_preset_data` (generate.py lines 110–141): locate a preset for the
build / run / build-and-run path.  Reads only the field `configurePresets`;
raises `FileNotFoundError` / `ValueError` instead of printing. -/
def read_preset_data (env : Env) (json_path preset_name : String) :
    PyResult Preset :=
  match env.presetsFile with
  | none => .raised (.fileNotFoundError s!"{json_path} not found.")
  | some none => .raised .jsonDecodeError
  | some (some doc) =>
    match readScan (doc.configurePresets.getD []) preset_name with
    | some p => .ok p
    | none => .raised (.valueError s!"Preset '{preset_name}' not found in {json_path}.")

/-! ## generate.py: project-name extraction -/

/-- `extract_project_name` (generate.py lines 83–107) applied to the lines of
CMakeLists.txt: find the first stripped line starting (case-insensitively)
with `project(`, take the text before the next `)`, strip it, split it on
whitespace, split the first token on `/`, and return the first piece
(`p2[0]` in the source). -/
def extract_project_name : List String → PyResult String
  | [] => .raised (.valueError "Could not find a valid project name in CMakeLists.txt.")
  | l :: rest =>
    let line := pyStrip l
    if pyStarts (pyLower line) "project(" then
      let name := pyStrip ((pySplit (pyDrop line 8) ')').headD "")
      if name ≠ "" then
        let p1 := pySplitWs name
        let p2 := pySplit (p1.headD "") '/'
        .ok (p2.headD "")
      else extract_project_name rest
    else extract_project_name rest

/-! ## generate.py: the four CLI operations -/

/-- `str(Path(b) / n)`: join a build directory and a file name. -/
def pathJoin (b n : String) : String :=
  if b = "" then n
  else (⟨(b.data.reverse.dropWhile (fun c => c = '/')).reverse⟩ : String) ++ "/" ++ n

/-- Python truthiness of the optional `executable` argument
(`if not executable`): absent or empty. -/
def falsy : Option String → Bool
  | none => true
  | some s => s.data.isEmpty

/-- `generate_and_build` (generate.py lines 30–80), the `generate` command:
find the preset via `find_cmake_presets`, create the build directory, run
the configure subprocess (with `check=True`), then dispatch on the
generator — `ninja` by exact equality of the lower-cased string, `make` by
substring — and run the build subprocess. -/
def generate_and_build (env : Env) (preset_name : String)
    (export_compile_commands : Bool) : List Effect × PyResult Unit :=
  match find_cmake_presets env "CMakePresets.json" preset_name with
  | (es, .exit c) => (es, .exit c)
  | (es, .raised e) => (es, .raised e)
  | (es, .ok preset) =>
    let build_dir := (pget preset "buildDir").getD "build"
    let es := es ++ [.mkdir build_dir]
    let preset_command := ["cmake", s!"--preset={preset_name}"]
    let (es, preset_command) :=
      if export_compile_commands then
        (es ++ [.print "Enabling export of compile commands..."],
         preset_command ++ ["-DCMAKE_EXPORT_COMPILE_COMMANDS=ON"])
      else (es, preset_command)
    let es := es ++ [.print s!"Running CMake with preset '{preset_name}'...",
                     .subproc preset_command true]
    if env.subprocExit preset_command ≠ 0 then (es, .raised .calledProcessError)
    else
      let generator := pyLower ((pget preset "generator").getD "Ninja")
      if generator = "ninja" then
        let es := es ++ [.print "Building project with Ninja...",
                         .subproc ["ninja", "-C", build_dir] true]
        if env.subprocExit ["ninja", "-C", build_dir] ≠ 0 then (es, .raised .calledProcessError)
        else (es ++ [.print "Generate and build complete!"], .ok ())
      else if pyIn "make" generator then
        let es := es ++ [.print "Building project with Makefiles...",
                         .subproc ["make", "-C", build_dir] true]
        if env.subprocExit ["make", "-C", build_dir] ≠ 0 then (es, .raised .calledProcessError)
        else (es ++ [.print "Generate and build complete!"], .ok ())
      else
        let gname := pyStr (pget preset "generator")
        (es, .raised (.valueError
          s!"Unsupported generator '{gname}'. Please use Ninja or Makefiles."))

/-- `build` (generate.py lines 212–249), the `build` command: read the
preset via `read_preset_data` (errors caught and printed), require the
`binaryDir`-resolved directory to exist, dispatch on the generator by
substring (`ninja` before `make`), and run the build subprocess with
`check=True`. -/
def build (env : Env) (preset_name : String) : List Effect × PyResult Unit :=
  match read_preset_data env "CMakePresets.json" preset_name with
  | .exit c => ([], .exit c)
  | .raised e =>
    if caughtByReaders e then ([.print s!"Error: {excText e}"], .ok ())
    else ([], .raised e)
  | .ok preset_data =>
    let generator := pyLower ((pget preset_data "generator").getD "Ninja")
    let build_dir := (pget preset_data "binaryDir").getD "build"
    let es := [Effect.print
      s!"Using generator '{generator}' and build directory '{build_dir}' from preset '{preset_name}'."]
    if ¬ env.dirExists build_dir then
      (es ++ [.print s!"Error: Build directory '{build_dir}' does not exist. Please generate the project first."],
       .ok ())
    else if pyIn "ninja" generator then
      let es := es ++ [.print s!"Building project with {generator}...",
                       .subproc ["ninja", "-C", build_dir] true]
      if env.subprocExit ["ninja", "-C", build_dir] ≠ 0 then (es, .raised .calledProcessError)
      else (es, .ok ())
    else if pyIn "make" generator then
      let es := es ++ [.print s!"Building project with {generator}...",
                       .subproc ["make", "-C", build_dir] true]
      if env.subprocExit ["make", "-C", build_dir] ≠ 0 then (es, .raised .calledProcessError)
      else (es, .ok ())
    else
      (es ++ [.print s!"Error: Unsupported generator '{generator}'. Only Ninja and Makefiles are supported."],
       .ok ())

/-- The executable-resolution and execution tail shared verbatim by `run`
(generate.py lines 279–304) and `build_and_run` (lines 185–210): infer the
executable from CMakeLists.txt when none (or an empty string) was given,
require it to be a regular file, and run it WITHOUT `check` (the child's
exit status is never consulted). -/
def resolveTargetExe (cmakeLists : Option (List String)) (build_dir : String)
    (executable : Option String)
    (es : List Effect) : (List Effect × PyResult Unit) ⊕ (List Effect × String) :=
  if falsy executable then
    let es := es ++ [Effect.print "No executable provided. Inferring from CMakeLists.txt..."]
    match cmakeLists with
    | none => .inl (es ++ [.print "Error: CMakeLists.txt not found in the current directory."], .ok ())
    | some lines =>
      let es := es ++ [Effect.readDescriptor "CMakeLists.txt"]
      match extract_project_name lines with
      | .ok project_name => .inr (es, pathJoin build_dir project_name)
      | .raised (.valueError m) => .inl (es ++ [.print s!"Error: {m}"], .ok ())
      | .raised e => .inl (es, .raised e)
      | .exit c => .inl (es, .exit c)
  else .inr (es, executable.getD "")

/-- Continuation of `resolveTargetExe`: the existence check on the resolved
executable and its `check`-less invocation. -/
def runResolvedTail (cmakeLists : Option (List String)) (isFile : String → Bool)
    (build_dir : String) (executable : Option String)
    (es : List Effect) : List Effect × PyResult Unit :=
  match resolveTargetExe cmakeLists build_dir executable es with
  | .inl out => out
  | .inr (es, exe) =>
    let es := es ++ [Effect.checkFile exe]
    if ¬ isFile exe then
      (es ++ [.print s!"Error: Executable '{exe}' does not exist. Did the build succeed?"], .ok ())
    else
      (es ++ [.print s!"Running target executable: {exe}...", .print "\n\n\n",
              .subproc [exe] false], .ok ())

/-- `run` (generate.py lines 252–304), the `run` command: read the preset
(errors caught and printed), require the `binaryDir`-resolved directory to
exist, then resolve and execute the target binary. -/
def run (env : Env) (preset_name : String) (executable : Option String) :
    List Effect × PyResult Unit :=
  match read_preset_data env "CMakePresets.json" preset_name with
  | .exit c => ([], .exit c)
  | .raised e =>
    if caughtByReaders e then ([.print s!"Error: {excText e}"], .ok ())
    else ([], .raised e)
  | .ok preset_data =>
    let build_dir := (pget preset_data "binaryDir").getD "build"
    if ¬ env.dirExists build_dir then
      ([.print s!"Error: Build directory '{build_dir}' does not exist. Please generate the project first."],
       .ok ())
    else
      runResolvedTail env.cmakeLists env.isFile build_dir executable []

/-- `build_and_run` (generate.py lines 144–210), the `build-run` command:
the body of `build` followed, only when the build subprocess returned
zero, by the executable-resolution tail of `run`. -/
def build_and_run (env : Env) (preset_name : String) (executable : Option String) :
    List Effect × PyResult Unit :=
  match read_preset_data env "CMakePresets.json" preset_name with
  | .exit c => ([], .exit c)
  | .raised e =>
    if caughtByReaders e then ([.print s!"Error: {excText e}"], .ok ())
    else ([], .raised e)
  | .ok preset_data =>
    let generator := pyLower ((pget preset_data "generator").getD "Ninja")
    let build_dir := (pget preset_data "binaryDir").getD "build"
    let es := [Effect.print
      s!"Using generator '{generator}' and build directory '{build_dir}' from preset '{preset_name}'."]
    if ¬ env.dirExists build_dir then
      (es ++ [.print s!"Error: Build directory '{build_dir}' does not exist. Please generate the project first."],
       .ok ())
    else if pyIn "ninja" generator then
      let es := es ++ [.print s!"Building project with {generator}...",
                       .subproc ["ninja", "-C", build_dir] true]
      if env.subprocExit ["ninja", "-C", build_dir] ≠ 0 then (es, .raised .calledProcessError)
      else runResolvedTail env.cmakeLists env.isFile build_dir executable es
    else if pyIn "make" generator then
      let es := es ++ [.print s!"Building project with {generator}...",
                       .subproc ["make", "-C", build_dir] true]
      if env.subprocExit ["make", "-C", build_dir] ≠ 0 then (es, .raised .calledProcessError)
      else runResolvedTail env.cmakeLists env.isFile build_dir executable es
    else
      (es ++ [.print s!"Error: Unsupported generator '{generator}'. Only Ninja and Makefiles are supported."],
       .ok ())

/-! ## config.py: DEFAULT_CONFIG, merge_dicts, load_config

Python objects are modelled with an explicit heap so that in-place
mutation and object identity are observable: a `Store` maps addresses to
dictionary contents, and a dictionary value is a scalar, a reference to
another heap dictionary, or a freshly parsed user subtree (which the
defaults never alias).  A parsed user-configuration value is a scalar or
a mapping, the mapping encoded as a chain of key/value entries so that
`merge_dicts` is plain structural recursion. -/

/-- A value of the freshly parsed user configuration: a YAML scalar, or a
mapping given as its entries in order (`dnil` / `dcons`). -/
inductive YVal where
  | prim (s : String)
  | dnil
  | dcons (k : String) (v : YVal) (rest : YVal)
deriving DecidableEq, Repr

/-- Python `isinstance(value, dict)` on a parsed user value. -/
def YVal.isDict : YVal → Bool
  | .prim _ => false
  | _ => true

/-- A value stored in a heap dictionary: a scalar, a reference to another
heap dictionary (the nested defaults), or an aliased user subtree. -/
inductive PyVal where
  | prim (s : String)
  | ref (a : Nat)
  | fresh (v : YVal)
deriving DecidableEq, Repr

/-- The contents of one Python dict, in insertion order. -/
abbrev PyDict := List (String × PyVal)

/-- The heap of dict objects. -/
abbrev Store := Nat → Option PyDict

/-- Python `d[k] = v`: replace in place when the key exists, append
otherwise. -/
def dictSet (d : PyDict) (k : String) (v : PyVal) : PyDict :=
  if (d.lookup k).isSome then d.map (fun kv => if kv.1 = k then (k, v) else kv)
  else d ++ [(k, v)]

/-- Overwrite the dict object at one address. -/
def storeSet (st : Store) (a : Nat) (d : PyDict) : Store :=
  fun x => if x = a then some d else st x

/-- `merge_dicts` (config.py lines 38–47) on the heap: iterate the
override's items; a nested mapping whose key maps to a nested default dict
recurses into that heap object and re-assigns the returned (identical)
reference; every other item is assigned into the default dict in place.
`none` models a Python crash: a scalar where the code iterates `.items()`,
or the `TypeError` of recursing into a scalar default with a non-empty
override mapping (only adversarial overrides reach either). -/
def merge_dicts (st : Store) (a : Nat) : YVal → Option (Store × Nat)
  | .prim _ => none
  | .dnil => some (st, a)
  | .dcons k v rest =>
    match st a with
    | none => none
    | some d =>
      if v.isDict && (d.lookup k).isSome then
        match d.lookup k with
        | some (.ref a2) =>
          match merge_dicts st a2 v with
          | none => none
          | some (st2, ra) =>
            match st2 a with
            | none => none
            | some d2 => merge_dicts (storeSet st2 a (dictSet d2 k (.ref ra))) a rest
        | _ => if v = .dnil then merge_dicts st a rest else none
      else
        match v with
        | .prim s => merge_dicts (storeSet st a (dictSet d k (.prim s))) a rest
        | vd => merge_dicts (storeSet st a (dictSet d k (.fresh vd))) a rest

/-- The address at which the module-level `DEFAULT_CONFIG` dict lives. -/
def DEFAULT_CONFIG_addr : Nat := 0

/-- `DEFAULT_CONFIG` (config.py lines 4–13) as the initial heap: the outer
dict at address 0 referring to the `docker` dict at 1 and the `cmake` dict
at 2. -/
def DEFAULT_CONFIG_store : Store := fun a =>
  if a = 0 then some [("docker", .ref 1), ("cmake", .ref 2)]
  else if a = 1 then
    some [("docker_compose_file", .prim "docker-compose.yml"),
          ("default_container_name", .prim "gcc-clang-dev")]
  else if a = 2 then
    some [("presets_path", .prim "CMakePresets.json"),
          ("default_generator", .prim "Ninja")]
  else none

/-- The state of the user configuration file
`~/.config/cppforge/cppforge.yaml`. -/
inductive UserCfg where
  | missing
  | malformed
  | parsed (t : YVal)

/-- `load_config` (config.py lines 15–35) over a heap whose
`DEFAULT_CONFIG` object sits at `DEFAULT_CONFIG_addr`: when the user file
exists and parses, return `merge_dicts(DEFAULT_CONFIG, user_config)`;
when it is missing or malformed, return `DEFAULT_CONFIG` itself (the YAML
error text is abstracted). -/
def load_config (st : Store) (user : UserCfg) : Option (Store × Nat × List Effect) :=
  match user with
  | .missing => some (st, DEFAULT_CONFIG_addr, [])
  | .malformed =>
    some (st, DEFAULT_CONFIG_addr, [.print "Error parsing YAML configuration file: <yaml error>"])
  | .parsed u =>
    (merge_dicts st DEFAULT_CONFIG_addr u).map (fun r => (r.1, r.2, []))

/-! ## Derived definitions used by the verification -/

/-- An environment whose document stores the single preset `p` under both
top-level field names (so that every lookup path sees it). -/
def envWithPreset (p : Preset) (cl : Option (List String)) (de fi : String → Bool)
    (sx : List String → Int) : Env :=
  ⟨some (some ⟨some [p], some [p]⟩), cl, de, fi, sx⟩

/-- An environment whose document has no `presets` key and stores `cps`
under `configurePresets`. -/
def envCfgOnly (cps : List Preset) (cl : Option (List String)) (de fi : String → Bool)
    (sx : List String → Int) : Env :=
  ⟨some (some ⟨none, some cps⟩), cl, de, fi, sx⟩

/-- The preset `p` with an explicit `generator = "Ninja"` field appended. -/
def withNinjaDefault (p : Preset) : Preset := p ++ [("generator", "Ninja")]

/-- A preset with name `nm` and the three optional fields the resolver
reads. -/
def presetOf (nm : String) (bd bind gen : Option String) : Preset :=
  [("name", nm)] ++ (bd.elim [] fun s => [("buildDir", s)])
    ++ (bind.elim [] fun s => [("binaryDir", s)])
    ++ (gen.elim [] fun s => [("generator", s)])

/-- The guard of `extract_project_name`'s scan: does this line (after
stripping, case-insensitively) start with `project(`? -/
def isProjectLine (l : String) : Bool := pyStarts (pyLower (pyStrip l)) "project("

/-- Effects that belong to `run`'s executable-resolution and execution
logic: opening the project descriptor, testing a candidate executable,
and any `check`-less subprocess (the target binary; build-phase
subprocesses always carry `check=True`). -/
def runPhaseEffect : Effect → Bool
  | .readDescriptor _ => true
  | .checkFile _ => true
  | .subproc _ ch => !ch
  | _ => false

/-- A user configuration overriding `cmake.default_generator`. -/
def userOverride : YVal :=
  .dcons "cmake" (.dcons "default_generator" (.prim "Make") .dnil) .dnil

/-- World with no CMakePresets.json at all. -/
def envDocMissing : Env := ⟨none, none, fun _ => false, fun _ => false, fun _ => 0⟩

/-- World whose document stores preset `a` only under the `presets` key. -/
def envPresetsOnly : Env :=
  ⟨some (some ⟨some [[("name", "a")]], none⟩), none, fun _ => true, fun _ => true, fun _ => 0⟩

/-- World whose document has an empty `presets` array and preset `a` under
`configurePresets`. -/
def envEmptyPresets : Env :=
  ⟨some (some ⟨some [], some [[("name", "a")]]⟩), none, fun _ => true, fun _ => true, fun _ => 0⟩

/-- World whose preset `a` declares `generator = "Ninja Multi-Config"`,
stored under both field names; directories exist, subprocesses succeed. -/
def envMulti : Env :=
  ⟨some (some ⟨some [[("name", "a"), ("generator", "Ninja Multi-Config")]],
               some [[("name", "a"), ("generator", "Ninja Multi-Config")]]⟩),
   none, fun _ => true, fun _ => true, fun _ => 0⟩

/-- World whose preset `a` declares only `binaryDir = "out"`, stored under
both field names; directories exist, subprocesses succeed. -/
def envBinaryOnly : Env :=
  ⟨some (some ⟨some [[("name", "a"), ("binaryDir", "out")]],
               some [[("name", "a"), ("binaryDir", "out")]]⟩),
   none, fun _ => true, fun _ => true, fun _ => 0⟩

/-- World where every subprocess exits 1 (build failure), with preset `a`
under `configurePresets` and all directories present. -/
def envBuildFail : Env :=
  ⟨some (some ⟨none, some [[("name", "a")]]⟩), none, fun _ => true, fun _ => true, fun _ => 1⟩

/-- The claim C6 scenario: document `{"configurePresets":[{"name":"dbg",
"binaryDir":"out/dbg"}]}` with `out/dbg` absent. -/
def envDirMissing : Env :=
  ⟨some (some ⟨none, some [[("name", "dbg"), ("binaryDir", "out/dbg")]]⟩),
   none, fun _ => false, fun _ => false, fun _ => 0⟩

/-- World with preset `a` (no optional fields) under both keys, every
directory and file present, every subprocess succeeding. -/
def envAllOk : Env :=
  envWithPreset [("name", "a")] none (fun _ => true) (fun _ => true) (fun _ => 0)

/-- A preset declaring only a name and a generator. -/
def genPreset (nm g : String) : Preset := [("name", nm), ("generator", g)]

/-- World with the preset `genPreset nm g` under both keys, every directory
and file present, every subprocess succeeding. -/
def envGen (nm g : String) : Env :=
  envWithPreset (genPreset nm g) none (fun _ => true) (fun _ => true) (fun _ => 0)

/-! ## Helper lemmas -/

theorem pget_append_some {p : Preset} {k x : String} (q : Preset)
    (h : pget p k = some x) : pget (p ++ q) k = some x := by
  induction p with
  | nil => simp [pget, List.lookup] at h
  | cons kv rest ih =>
    simp only [pget, List.cons_append, List.lookup] at h ⊢
    cases hkk : (k == kv.1) with
    | true => simpa [hkk] using h
    | false =>
      simp only [hkk] at h ⊢
      exact ih h

theorem pget_append_none {p : Preset} {k : String} (q : Preset)
    (h : pget p k = none) : pget (p ++ q) k = pget q k := by
  induction p with
  | nil => simp [pget]
  | cons kv rest ih =>
    simp only [pget, List.cons_append, List.lookup] at h ⊢
    cases hkk : (k == kv.1) with
    | true => simp [hkk] at h
    | false =>
      simp only [hkk] at h ⊢
      exact ih h

theorem pget_genPreset_name (nm g : String) : pget (genPreset nm g) "name" = some nm := by
  simp [genPreset, pget, List.lookup]

theorem pget_genPreset_generator (nm g : String) :
    pget (genPreset nm g) "generator" = some g := by
  simp [genPreset, pget, List.lookup, (by decide : (("generator" == "name") : Bool) = false)]

theorem pget_genPreset_binaryDir (nm g : String) :
    pget (genPreset nm g) "binaryDir" = none := by
  simp [genPreset, pget, List.lookup,
    (by decide : (("binaryDir" == "name") : Bool) = false),
    (by decide : (("binaryDir" == "generator") : Bool) = false)]

theorem pget_genPreset_buildDir (nm g : String) :
    pget (genPreset nm g) "buildDir" = none := by
  simp [genPreset, pget, List.lookup,
    (by decide : (("buildDir" == "name") : Bool) = false),
    (by decide : (("buildDir" == "generator") : Bool) = false)]

theorem read_envGen (nm g : String) :
    read_preset_data (envGen nm g) "CMakePresets.json" nm = .ok (genPreset nm g) := by
  simp [read_preset_data, envGen, envWithPreset, readScan, pget_genPreset_name]

theorem find_envGen (nm g : String) :
    find_cmake_presets (envGen nm g) "CMakePresets.json" nm = ([], .ok (genPreset nm g)) := by
  simp [find_cmake_presets, envGen, envWithPreset, findScan, pget_genPreset_name]

theorem pget_presetOf_name (nm : String) (bd bind gen : Option String) :
    pget (presetOf nm bd bind gen) "name" = some nm := by
  simp [presetOf, pget, List.lookup]

theorem pget_presetOf_buildDir (nm : String) (bd bind gen : Option String) :
    pget (presetOf nm bd bind gen) "buildDir" = bd := by
  cases bd <;> cases bind <;> cases gen <;>
    simp [presetOf, pget, List.lookup,
      (by decide : (("buildDir" == "name") : Bool) = false),
      (by decide : (("buildDir" == "binaryDir") : Bool) = false),
      (by decide : (("buildDir" == "generator") : Bool) = false)]

theorem pget_presetOf_binaryDir (nm : String) (bd bind gen : Option String) :
    pget (presetOf nm bd bind gen) "binaryDir" = bind := by
  cases bd <;> cases bind <;> cases gen <;>
    simp [presetOf, pget, List.lookup,
      (by decide : (("binaryDir" == "name") : Bool) = false),
      (by decide : (("binaryDir" == "buildDir") : Bool) = false),
      (by decide : (("binaryDir" == "generator") : Bool) = false)]

theorem pget_presetOf_generator (nm : String) (bd bind gen : Option String) :
    pget (presetOf nm bd bind gen) "generator" = gen := by
  cases bd <;> cases bind <;> cases gen <;>
    simp [presetOf, pget, List.lookup,
      (by decide : (("generator" == "name") : Bool) = false),
      (by decide : (("generator" == "buildDir") : Bool) = false),
      (by decide : (("generator" == "binaryDir") : Bool) = false)]

theorem read_envWithPreset (p : Preset) (cl : Option (List String)) (de fi : String → Bool)
    (sx : List String → Int) (nm : String) (hn : pget p "name" = some nm) :
    read_preset_data (envWithPreset p cl de fi sx) "CMakePresets.json" nm = .ok p := by
  simp [read_preset_data, envWithPreset, readScan, hn]

theorem find_envWithPreset (p : Preset) (cl : Option (List String)) (de fi : String → Bool)
    (sx : List String → Int) (nm : String) (hn : pget p "name" = some nm) :
    find_cmake_presets (envWithPreset p cl de fi sx) "CMakePresets.json" nm = ([], .ok p) := by
  simp [find_cmake_presets, envWithPreset, findScan, hn]

theorem findScan_eq_readScan (cps : List Preset) (nm : String)
    (h : ∀ p ∈ cps, (pget p "name").isSome) :
    findScan cps nm = .ok (readScan cps nm) := by
  induction cps with
  | nil => rfl
  | cons p rest ih =>
    obtain ⟨n, hn⟩ := Option.isSome_iff_exists.mp (h p (by simp))
    simp only [findScan, readScan, hn]
    by_cases hEq : n = nm
    · simp [hEq]
    · simp only [hEq, if_false, Option.some.injEq, hEq, if_neg hEq]
      exact ih (fun q hq => h q (by simp [hq]))

theorem listStarts_append_self (p l : List Char) : listStarts (p ++ l) p = true := by
  induction p with
  | nil => simp [listStarts]
  | cons a t ih => simp [listStarts, ih]

theorem splitIfCh_exists_cons (p : Char → Bool) (cs : List Char) :
    ∃ h t, splitIfCh p cs = h :: t := by
  induction cs with
  | nil => exact ⟨[], [], rfl⟩
  | cons c rest ih =>
    obtain ⟨h, t, heq⟩ := ih
    by_cases hc : p c = true
    · exact ⟨[], h :: t, by simp [splitIfCh, heq, hc]⟩
    · exact ⟨c :: h, t, by simp [splitIfCh, heq, hc]⟩

theorem splitIfCh_append_not (p : Char → Bool) (xs : List Char) {l : List Char}
    {hd : List Char} {tl : List (List Char)} (hsp : splitIfCh p l = hd :: tl)
    (h : ∀ c ∈ xs, p c = false) :
    splitIfCh p (xs ++ l) = (xs ++ hd) :: tl := by
  induction xs with
  | nil => simpa using hsp
  | cons c cs ih =>
    have hc : p c = false := h c (by simp)
    have ihh := ih (fun d hd2 => h d (by simp [hd2]))
    simp [splitIfCh, ihh, hc]

theorem trimCh_eq_self {xs : List Char}
    (h1 : ∀ c, xs.head? = some c → isWsChar c = false)
    (h2 : ∀ c, xs.getLast? = some c → isWsChar c = false) :
    trimCh xs = xs := by
  cases xs with
  | nil => rfl
  | cons a l =>
    have ha : isWsChar a = false := h1 a rfl
    unfold trimCh
    rw [List.dropWhile_cons, if_neg (by simp [ha])]
    cases hR : (a :: l).reverse with
    | nil => simp at hR
    | cons b t =>
      have hb : isWsChar b = false := h2 b (by rw [← List.head?_reverse, hR]; rfl)
      have hstep : List.dropWhile isWsChar (b :: t) = b :: t := by
        rw [List.dropWhile_cons, if_neg (by simp [hb])]
      rw [hstep, ← hR, List.reverse_reverse]

theorem trimCh_append_left (A B : List Char) (hA : A ≠ [])
    (hAws : ∀ c ∈ A, isWsChar c = false) :
    trimCh (A ++ B) = A ++ (B.reverse.dropWhile isWsChar).reverse := by
  unfold trimCh
  have h1 : (A ++ B).dropWhile isWsChar = A ++ B := by
    cases A with
    | nil => exact absurd rfl hA
    | cons a l =>
      rw [List.cons_append, List.dropWhile_cons, if_neg (by simp [hAws a (by simp)])]
  have hArev : A.reverse.dropWhile isWsChar = A.reverse := by
    cases hR : A.reverse with
    | nil => rfl
    | cons b t =>
      have hb : b ∈ A := by
        rw [← List.mem_reverse, hR]
        exact List.mem_cons_self _ _
      rw [List.dropWhile_cons, if_neg (by simp [hAws b hb])]
  rw [h1, List.reverse_append, List.dropWhile_append]
  split_ifs with hE
  · have hBd : B.reverse.dropWhile isWsChar = [] := by
      cases hx : B.reverse.dropWhile isWsChar with
      | nil => rfl
      | cons x xs => rw [hx] at hE; simp at hE
    rw [hArev, hBd]
    simp
  · rw [List.reverse_append, List.reverse_reverse]

theorem dropTrailing_head (B : List Char) :
    (B.reverse.dropWhile isWsChar).reverse = [] ∨
    ((B.reverse.dropWhile isWsChar).reverse).head? = B.head? := by
  have hsuf : B.reverse.dropWhile isWsChar <:+ B.reverse := List.dropWhile_suffix _
  have hpre : (B.reverse.dropWhile isWsChar).reverse <+: B := by
    refine (List.reverse_suffix).1 ?_
    rw [List.reverse_reverse]
    exact hsuf
  obtain ⟨t, ht⟩ := hpre
  cases hu : (B.reverse.dropWhile isWsChar).reverse with
  | nil => exact Or.inl rfl
  | cons x xs =>
    right
    rw [← ht, hu]
    simp

theorem pySplitWs_head_token (A B : List Char) (hA : A ≠ [])
    (hAws : ∀ c ∈ A, isWsChar c = false)
    (hB : ∀ c, B.head? = some c → isWsChar c = true) :
    (pySplitWs ⟨A ++ B⟩).headD "" = ⟨A⟩ := by
  unfold pySplitWs
  have hdata : (⟨A ++ B⟩ : String).data = A ++ B := rfl
  rw [hdata]
  cases hBc : B with
  | nil =>
    have hsp : splitIfCh isWsChar ([] : List Char) = [] :: [] := rfl
    rw [splitIfCh_append_not isWsChar A hsp hAws]
    simp [hA]
  | cons c cs =>
    have hc : isWsChar c = true := hB c (by rw [hBc]; rfl)
    obtain ⟨h2, t2, heq2⟩ := splitIfCh_exists_cons isWsChar cs
    have hsp : splitIfCh isWsChar (c :: cs) = [] :: h2 :: t2 := by
      simp [splitIfCh, heq2, hc]
    rw [splitIfCh_append_not isWsChar A hsp hAws]
    simp [hA]

/-! ## Claim theorems -/

/-- C3 counterexample: on a descriptor whose project token is
`some/Nested/Name`, the extraction of `extract_project_name` returns the
FIRST path segment `some`, not the final segment `Name` that the claim
requires. -/
theorem c3_extract_counterexample :
    extract_project_name ["project(some/Nested/Name)"] = .ok "some" ∧
    "some" ≠ "Name" := by
  exact ⟨rfl, by decide⟩

/-- C3 amended: for EVERY descriptor whose first project line carries, between
the parentheses, a first whitespace-delimited token containing a path
separator, the extraction returns the FIRST path segment of that token:
for any non-project lines before, any lines after, any separator-free
first segment `s1`, any token remainder `s2` (which may hold further
separators), and any further whitespace-led text `rest` before the closing
parenthesis, `extract_project_name` returns `s1`. -/
theorem c3_extract_first_segment (pre post : List String) (s1 s2 rest : String)
    (hpre : ∀ l ∈ pre, isProjectLine l = false)
    (hs1ws : ∀ c ∈ s1.data, isWsChar c = false)
    (hs1paren : ∀ c ∈ s1.data, c ≠ ')')
    (hs1slash : ∀ c ∈ s1.data, c ≠ '/')
    (hs2ws : ∀ c ∈ s2.data, isWsChar c = false)
    (hs2paren : ∀ c ∈ s2.data, c ≠ ')')
    (hrestparen : ∀ c ∈ rest.data, c ≠ ')')
    (hrestws : ∀ c, rest.data.head? = some c → isWsChar c = true) :
    extract_project_name (pre ++ ("project(" ++ s1 ++ "/" ++ s2 ++ rest ++ ")") :: post) =
      .ok s1 := by
  induction pre with
  | cons l ls ih =>
    have hl : pyStarts (pyLower (pyStrip l)) "project(" = false := hpre l (by simp)
    simp only [List.cons_append, extract_project_name, hl, Bool.false_eq_true, if_false]
    exact ih (fun x hx => hpre x (by simp [hx]))
  | nil =>
    simp only [List.nil_append]
    have hpd : ("project(" : String).data.length = 8 := rfl
    have hline : ("project(" ++ s1 ++ "/" ++ s2 ++ rest ++ ")" : String).data =
        ("project(" : String).data ++ ((s1.data ++ '/' :: (s2.data ++ rest.data)) ++ [')']) := by
      simp [String.data_append, (show ("/" : String).data = ['/'] from rfl),
        (show (")" : String).data = [')'] from rfl)]
    have hh : ("project(" ++ s1 ++ "/" ++ s2 ++ rest ++ ")" : String).data.head? = some 'p' := by
      rw [hline]; rfl
    have hlast : ("project(" ++ s1 ++ "/" ++ s2 ++ rest ++ ")" : String).data.getLast? =
        some ')' := by
      rw [hline,
        show ("project(" : String).data ++ ((s1.data ++ '/' :: (s2.data ++ rest.data)) ++ [')']) =
          (("project(" : String).data ++ (s1.data ++ '/' :: (s2.data ++ rest.data))) ++ [')'] by
            simp]
      exact List.getLast?_concat _
    have hstrip : pyStrip ("project(" ++ s1 ++ "/" ++ s2 ++ rest ++ ")") =
        ("project(" ++ s1 ++ "/" ++ s2 ++ rest ++ ")") := by
      unfold pyStrip
      rw [trimCh_eq_self
        (fun c hc => by rw [hh] at hc; injection hc with h; subst h; decide)
        (fun c hc => by rw [hlast] at hc; injection hc with h; subst h; decide)]
    have hstart : pyStarts (pyLower ("project(" ++ s1 ++ "/" ++ s2 ++ rest ++ ")")) "project(" =
        true := by
      unfold pyStarts pyLower
      rw [show ((⟨("project(" ++ s1 ++ "/" ++ s2 ++ rest ++ ")" : String).data.map lowerCh⟩ :
        String)).data = ("project(" ++ s1 ++ "/" ++ s2 ++ rest ++ ")" : String).data.map lowerCh
        from rfl]
      rw [hline, List.map_append,
        show ("project(" : String).data.map lowerCh = ("project(" : String).data by decide]
      exact listStarts_append_self _ _
    have hdrop : pyDrop ("project(" ++ s1 ++ "/" ++ s2 ++ rest ++ ")") 8 =
        (⟨(s1.data ++ '/' :: (s2.data ++ rest.data)) ++ [')']⟩ : String) := by
      unfold pyDrop
      exact congrArg String.mk (by rw [hline, ← hpd, List.drop_left])
    have hfree : ∀ c ∈ s1.data ++ '/' :: (s2.data ++ rest.data), ((c = ')') : Bool) = false := by
      intro c hc
      rcases List.mem_append.1 hc with h | h
      · simp [hs1paren c h]
      · rcases List.mem_cons.1 h with rfl | h
        · decide
        · rcases List.mem_append.1 h with h | h
          · simp [hs2paren c h]
          · simp [hrestparen c h]
    have hspr : splitIfCh (fun c => ((c = ')') : Bool)) [')'] = [] :: [[]] := by decide
    have hsplit1 : (pySplit (pyDrop ("project(" ++ s1 ++ "/" ++ s2 ++ rest ++ ")") 8) ')').headD
        "" = (⟨s1.data ++ '/' :: (s2.data ++ rest.data)⟩ : String) := by
      rw [hdrop]
      unfold pySplit
      rw [show ((⟨(s1.data ++ '/' :: (s2.data ++ rest.data)) ++ [')']⟩ : String)).data =
        (s1.data ++ '/' :: (s2.data ++ rest.data)) ++ [')'] from rfl]
      rw [splitIfCh_append_not _ _ hspr hfree]
      simp
    have hTA : (s1.data ++ '/' :: s2.data) ≠ [] := by simp
    have hTAws : ∀ c ∈ s1.data ++ '/' :: s2.data, isWsChar c = false := by
      intro c hc
      rcases List.mem_append.1 hc with h | h
      · exact hs1ws c h
      · rcases List.mem_cons.1 h with rfl | h
        · decide
        · exact hs2ws c h
    have hname : pyStrip (⟨s1.data ++ '/' :: (s2.data ++ rest.data)⟩ : String) =
        (⟨(s1.data ++ '/' :: s2.data) ++ (rest.data.reverse.dropWhile isWsChar).reverse⟩ :
          String) := by
      unfold pyStrip
      rw [show ((⟨s1.data ++ '/' :: (s2.data ++ rest.data)⟩ : String)).data =
        s1.data ++ '/' :: (s2.data ++ rest.data) from rfl]
      rw [show s1.data ++ '/' :: (s2.data ++ rest.data) =
        (s1.data ++ '/' :: s2.data) ++ rest.data by simp]
      rw [trimCh_append_left _ _ hTA hTAws]
    have hB2 : ∀ c, ((rest.data.reverse.dropWhile isWsChar).reverse).head? = some c →
        isWsChar c = true := by
      intro c hc
      rcases dropTrailing_head rest.data with h | h
      · rw [h] at hc; simp at hc
      · rw [h] at hc; exact hrestws c hc
    have hp1 : (pySplitWs (⟨(s1.data ++ '/' :: s2.data) ++
        (rest.data.reverse.dropWhile isWsChar).reverse⟩ : String)).headD "" =
        (⟨s1.data ++ '/' :: s2.data⟩ : String) :=
      pySplitWs_head_token _ _ hTA hTAws hB2
    have hne : (⟨(s1.data ++ '/' :: s2.data) ++
        (rest.data.reverse.dropWhile isWsChar).reverse⟩ : String) ≠ "" := by
      intro h
      have h2 := congrArg String.data h
      simp at h2
    have hfree2 : ∀ c ∈ s1.data, ((c = '/') : Bool) = false := fun c h => by
      simp [hs1slash c h]
    obtain ⟨h2s, t2s, heq2s⟩ := splitIfCh_exists_cons (fun c => ((c = '/') : Bool)) s2.data
    have hsp2 : splitIfCh (fun c => ((c = '/') : Bool)) ('/' :: s2.data) = [] :: h2s :: t2s := by
      simp [splitIfCh, heq2s]
    have hp2 : (pySplit (⟨s1.data ++ '/' :: s2.data⟩ : String) '/').headD "" = s1 := by
      unfold pySplit
      rw [show ((⟨s1.data ++ '/' :: s2.data⟩ : String)).data = s1.data ++ '/' :: s2.data
        from rfl]
      rw [splitIfCh_append_not _ _ hsp2 hfree2]
      simp
    simp only [extract_project_name, hstrip, hstart, eq_self_iff_true, if_true]
    rw [hsplit1, hname, if_pos hne, hp1, hp2]

/-- C3 witness: the amended theorem at a concrete three-line descriptor with
token `some/Nested/Name`, yielding its first path segment `some`. -/
theorem c3_extract_first_segment_witness :
    extract_project_name
      (["# top-level build"] ++ ("project(" ++ "some" ++ "/" ++ "Nested/Name" ++ "" ++ ")") ::
        ["add_executable(app main.cpp)"]) = .ok "some" :=
  c3_extract_first_segment ["# top-level build"] ["add_executable(app main.cpp)"]
    "some" "Nested/Name" "" (by decide) (by decide) (by decide) (by decide)
    (by decide) (by decide) (by decide) (fun c hc => by simp at hc)

/-- C1 counterexample: with the document `{"presets":[{"name":"a"}]}` the
generate-path lookup (`find_cmake_presets`) returns the preset but the
build/run/build-run lookup (`read_preset_data`) raises preset-not-found
(so `build` reports the error); and with `{"presets":[],
"configurePresets":[{"name":"a"}]}` an EMPTY `presets` array does not fall
back, so `find_cmake_presets` exits — both refuting the claim that both
operations read `presets` with fallback to `configurePresets` when it is
absent or empty. -/
theorem c1_preset_field_counterexample :
    (find_cmake_presets envPresetsOnly "CMakePresets.json" "a").2 = .ok [("name", "a")] ∧
    read_preset_data envPresetsOnly "CMakePresets.json" "a" =
      .raised (.valueError "Preset 'a' not found in CMakePresets.json.") ∧
    (build envPresetsOnly "a").2 = .ok () ∧
    Effect.print "Error: Preset 'a' not found in CMakePresets.json." ∈ (build envPresetsOnly "a").1 ∧
    (find_cmake_presets envEmptyPresets "CMakePresets.json" "a").2 = .exit 1 := by
  exact ⟨rfl, rfl, rfl, by decide, rfl⟩

/-- C1 amended: `find_cmake_presets` (generate/configure) reads `presets`,
falling back to `configurePresets` only when the key `presets` is ABSENT
(an empty array is used as-is), and ignores `configurePresets` whenever
`presets` is present; `read_preset_data` (build, run, build-run) reads
only `configurePresets`; hence on a document with no `presets` key whose
`configurePresets` entries all carry names, the two lookups find exactly
the same presets. -/
theorem c1_preset_field_amended (cps : List Preset) (cl : Option (List String))
    (de fi : String → Bool) (sx : List String → Int) (nm : String)
    (hnames : ∀ p ∈ cps, (pget p "name").isSome) :
    (∀ p : Preset,
      (find_cmake_presets (envCfgOnly cps cl de fi sx) "CMakePresets.json" nm).2 = .ok p ↔
      read_preset_data (envCfgOnly cps cl de fi sx) "CMakePresets.json" nm = .ok p) ∧
    (∀ (ps : List Preset) (cp cp2 : Option (List Preset)) (jp : String),
      find_cmake_presets ⟨some (some ⟨some ps, cp⟩), cl, de, fi, sx⟩ jp nm =
      find_cmake_presets ⟨some (some ⟨some ps, cp2⟩), cl, de, fi, sx⟩ jp nm) ∧
    (∀ (pf pf2 cp : Option (List Preset)) (jp : String),
      read_preset_data ⟨some (some ⟨pf, cp⟩), cl, de, fi, sx⟩ jp nm =
      read_preset_data ⟨some (some ⟨pf2, cp⟩), cl, de, fi, sx⟩ jp nm) := by
  refine ⟨?_, fun ps cp cp2 jp => rfl, fun pf pf2 cp jp => rfl⟩
  intro p
  have hscan := findScan_eq_readScan cps nm hnames
  simp only [find_cmake_presets, read_preset_data, envCfgOnly, Option.getD_some, hscan]
  cases hr : readScan cps nm with
  | some q => simp
  | none => simp

/-- C1 witness: the amended theorem at a one-preset `configurePresets`
document, instantiated at that preset. -/
theorem c1_preset_field_amended_witness :
    (find_cmake_presets (envCfgOnly [[("name", "dbg")]] none (fun _ => true) (fun _ => true)
        (fun _ => 0)) "CMakePresets.json" "dbg").2 = .ok [("name", "dbg")] ↔
    read_preset_data (envCfgOnly [[("name", "dbg")]] none (fun _ => true) (fun _ => true)
        (fun _ => 0)) "CMakePresets.json" "dbg" = .ok [("name", "dbg")] :=
  (c1_preset_field_amended [[("name", "dbg")]] none (fun _ => true) (fun _ => true)
    (fun _ => 0) "dbg" (by decide)).1 [("name", "dbg")]

/-- C2 counterexample: in the build step of generate/configure a generator
of `Ninja Multi-Config` is NOT routed to the ninja-family driver — the
whole operation raises the unsupported-generator error and never invokes
any build driver — although the substring test the claim describes would
match; `generate_and_build` compares the lower-cased generator to
`"ninja"` by equality. -/
theorem c2_generator_match_counterexample :
    (generate_and_build envMulti "a" false).2 =
      .raised (.valueError "Unsupported generator 'Ninja Multi-Config'. Please use Ninja or Makefiles.") ∧
    (generate_and_build envMulti "a" false).1 =
      [.mkdir "build", .print "Running CMake with preset 'a'...",
       .subproc ["cmake", "--preset=a"] true] ∧
    pyIn "ninja" (pyLower "Ninja Multi-Config") = true := by
  decide

/-- C2 amended: `build` and `build_and_run` match the generator
case-insensitively by substring, ninja before make, and report
UnsupportedGenerator when neither substring occurs; the build step of
`generate_and_build` matches the make family by substring but the ninja
family only by exact (case-insensitive) equality, raising
UnsupportedGenerator otherwise — so `"Unix Makefiles"` routes to make
everywhere while `"Ninja Multi-Config"` routes to ninja only in build and
build-run. -/
theorem c2_generator_match_amended (nm g : String) :
    (pyIn "ninja" (pyLower g) = true →
      Effect.subproc ["ninja", "-C", "build"] true ∈ (build (envGen nm g) nm).1) ∧
    (pyIn "ninja" (pyLower g) = false → pyIn "make" (pyLower g) = true →
      Effect.subproc ["make", "-C", "build"] true ∈ (build (envGen nm g) nm).1) ∧
    (pyIn "ninja" (pyLower g) = false → pyIn "make" (pyLower g) = false →
      (build (envGen nm g) nm).2 = .ok () ∧
      ∀ e ∈ (build (envGen nm g) nm).1, ∀ cmd ch, e ≠ .subproc cmd ch) ∧
    (pyIn "ninja" (pyLower g) = true →
      Effect.subproc ["ninja", "-C", "build"] true ∈ (build_and_run (envGen nm g) nm (some "x")).1) ∧
    (pyIn "ninja" (pyLower g) = false → pyIn "make" (pyLower g) = true →
      Effect.subproc ["make", "-C", "build"] true ∈ (build_and_run (envGen nm g) nm (some "x")).1) ∧
    (pyLower g = "ninja" →
      Effect.subproc ["ninja", "-C", "build"] true ∈ (generate_and_build (envGen nm g) nm false).1) ∧
    (¬ pyLower g = "ninja" → pyIn "make" (pyLower g) = true →
      Effect.subproc ["make", "-C", "build"] true ∈ (generate_and_build (envGen nm g) nm false).1) ∧
    (¬ pyLower g = "ninja" → pyIn "make" (pyLower g) = false →
      (generate_and_build (envGen nm g) nm false).2 =
        .raised (.valueError s!"Unsupported generator '{g}'. Please use Ninja or Makefiles.")) ∧
    (pyIn "make" (pyLower "Unix Makefiles") = true ∧
      pyIn "ninja" (pyLower "Unix Makefiles") = false) ∧
    (pyIn "ninja" (pyLower "Ninja Multi-Config") = true ∧
      pyLower "Ninja Multi-Config" ≠ "ninja") := by
  refine ⟨?_, ?_, ?_, ?_, ?_, ?_, ?_, ?_, by decide, by decide⟩
  · intro h1
    simp only [build, read_envGen nm g]
    simp [pget_genPreset_generator, pget_genPreset_binaryDir, envGen, envWithPreset, h1]
  · intro h1 h2
    simp only [build, read_envGen nm g]
    simp [pget_genPreset_generator, pget_genPreset_binaryDir, envGen, envWithPreset, h1, h2]
  · intro h1 h2
    constructor
    · simp only [build, read_envGen nm g]
      simp [pget_genPreset_generator, pget_genPreset_binaryDir, envGen, envWithPreset, h1, h2]
    · intro e he
      simp only [build, read_envGen nm g] at he
      simp [pget_genPreset_generator, pget_genPreset_binaryDir, envGen, envWithPreset,
        h1, h2] at he
      rcases he with h | h <;> subst h <;> intro cmd ch <;> simp
  · intro h1
    simp only [build_and_run, read_envGen nm g]
    simp [pget_genPreset_generator, pget_genPreset_binaryDir, envGen, envWithPreset, h1,
      runResolvedTail, resolveTargetExe, falsy]
  · intro h1 h2
    simp only [build_and_run, read_envGen nm g]
    simp [pget_genPreset_generator, pget_genPreset_binaryDir, envGen, envWithPreset, h1, h2,
      runResolvedTail, resolveTargetExe, falsy]
  · intro h1
    simp only [generate_and_build, find_envGen nm g]
    simp [pget_genPreset_generator, pget_genPreset_buildDir, envGen, envWithPreset, h1]
  · intro h1 h2
    simp only [generate_and_build, find_envGen nm g]
    simp [pget_genPreset_generator, pget_genPreset_buildDir, envGen, envWithPreset, h1, h2]
  · intro h1 h2
    simp only [generate_and_build, find_envGen nm g]
    simp [pget_genPreset_generator, pget_genPreset_buildDir, envGen, envWithPreset, h1, h2,
      pyStr]

/-- C2 witness: `"Unix Makefiles"` routed to the make driver by `build`,
and `"Ninja Multi-Config"` routed to the ninja driver by `build`. -/
theorem c2_generator_match_witness :
    Effect.subproc ["make", "-C", "build"] true ∈
      (build (envGen "a" "Unix Makefiles") "a").1 ∧
    Effect.subproc ["ninja", "-C", "build"] true ∈
      (build (envGen "a" "Ninja Multi-Config") "a").1 :=
  ⟨(c2_generator_match_amended "a" "Unix Makefiles").2.1 (by decide) (by decide),
   (c2_generator_match_amended "a" "Ninja Multi-Config").1 (by decide)⟩

/-- C4 counterexample: for the preset `{"name":"a","binaryDir":"out"}` the
generate/configure operation resolves the build directory to `"build"`,
creating `build` and building in it — not to the present `binaryDir`
value `out` that the claim requires it to prefer. -/
theorem c4_dir_resolution_counterexample :
    Effect.mkdir "build" ∈ (generate_and_build envBinaryOnly "a" false).1 ∧
    (generate_and_build envBinaryOnly "a" false).1 =
      [.mkdir "build", .print "Running CMake with preset 'a'...",
       .subproc ["cmake", "--preset=a"] true, .print "Building project with Ninja...",
       .subproc ["ninja", "-C", "build"] true, .print "Generate and build complete!"] := by
  decide

/-- C4 amended: generate/configure resolves the build directory from
`buildDir` alone (default `"build"`), ignoring `binaryDir` entirely, while
`build` and `run` resolve it from `binaryDir` alone (default `"build"`),
ignoring `buildDir`; when both fields are absent every operation resolves
exactly `"build"`. -/
theorem c4_dir_resolution_amended (nm bdir b : String) (bd bind gen : Option String)
    (cl : Option (List String)) (de fi : String → Bool) (sx : List String → Int) (ecc : Bool)
    (hbd : bd.getD "build" = bdir) (hb : bind.getD "build" = b) :
    Effect.mkdir bdir ∈
      (generate_and_build (envWithPreset (presetOf nm bd bind gen) cl de fi sx) nm ecc).1 ∧
    (∀ bind2 : Option String,
      generate_and_build (envWithPreset (presetOf nm bd bind gen) cl de fi sx) nm ecc =
      generate_and_build (envWithPreset (presetOf nm bd bind2 gen) cl de fi sx) nm ecc) ∧
    (∀ bd2 : Option String,
      build (envWithPreset (presetOf nm bd bind gen) cl de fi sx) nm =
        build (envWithPreset (presetOf nm bd2 bind gen) cl de fi sx) nm ∧
      run (envWithPreset (presetOf nm bd bind gen) cl de fi sx) nm none =
        run (envWithPreset (presetOf nm bd2 bind gen) cl de fi sx) nm none) ∧
    (de b = false →
      Effect.print s!"Error: Build directory '{b}' does not exist. Please generate the project first."
        ∈ (build (envWithPreset (presetOf nm bd bind gen) cl de fi sx) nm).1 ∧
      Effect.print s!"Error: Build directory '{b}' does not exist. Please generate the project first."
        ∈ (run (envWithPreset (presetOf nm bd bind gen) cl de fi sx) nm none).1) := by
  refine ⟨?_, ?_, ?_, ?_⟩
  · simp only [generate_and_build,
      find_envWithPreset (presetOf nm bd bind gen) cl de fi sx nm (pget_presetOf_name nm bd bind gen),
      pget_presetOf_buildDir, pget_presetOf_generator, hbd]
    split_ifs <;> simp
  · intro bind2
    simp only [generate_and_build,
      find_envWithPreset (presetOf nm bd bind gen) cl de fi sx nm (pget_presetOf_name nm bd bind gen),
      find_envWithPreset (presetOf nm bd bind2 gen) cl de fi sx nm (pget_presetOf_name nm bd bind2 gen)]
    simp only [pget_presetOf_buildDir, pget_presetOf_generator, envWithPreset]
  · intro bd2
    constructor
    · simp only [build,
        read_envWithPreset (presetOf nm bd bind gen) cl de fi sx nm (pget_presetOf_name nm bd bind gen),
        read_envWithPreset (presetOf nm bd2 bind gen) cl de fi sx nm (pget_presetOf_name nm bd2 bind gen)]
      simp only [pget_presetOf_binaryDir, pget_presetOf_generator, envWithPreset]
    · simp only [run,
        read_envWithPreset (presetOf nm bd bind gen) cl de fi sx nm (pget_presetOf_name nm bd bind gen),
        read_envWithPreset (presetOf nm bd2 bind gen) cl de fi sx nm (pget_presetOf_name nm bd2 bind gen)]
      simp only [pget_presetOf_binaryDir, envWithPreset]
  · intro hd
    constructor
    · simp only [build,
        read_envWithPreset (presetOf nm bd bind gen) cl de fi sx nm (pget_presetOf_name nm bd bind gen),
        pget_presetOf_binaryDir, pget_presetOf_generator, hb]
      simp [envWithPreset, hd]
    · simp only [run,
        read_envWithPreset (presetOf nm bd bind gen) cl de fi sx nm (pget_presetOf_name nm bd bind gen),
        pget_presetOf_binaryDir, hb]
      simp [envWithPreset, hd]

/-- C4 witness: the amended theorem with both directory fields absent —
generate creates `build` and, with no directory present, build and run
report the missing directory `build`. -/
theorem c4_dir_resolution_witness :
    Effect.mkdir "build" ∈
      (generate_and_build (envWithPreset (presetOf "a" none none none) none
        (fun _ => false) (fun _ => false) (fun _ => 0)) "a" false).1 ∧
    Effect.print "Error: Build directory 'build' does not exist. Please generate the project first."
      ∈ (build (envWithPreset (presetOf "a" none none none) none
        (fun _ => false) (fun _ => false) (fun _ => 0)) "a").1 :=
  ⟨(c4_dir_resolution_amended "a" "build" "build" none none none none
      (fun _ => false) (fun _ => false) (fun _ => 0) false rfl rfl).1,
   ((c4_dir_resolution_amended "a" "build" "build" none none none none
      (fun _ => false) (fun _ => false) (fun _ => 0) false rfl rfl).2.2.2 rfl).1⟩

/-- C6: whenever the preset resolves but its `binaryDir`-resolved build
directory `b` does not exist, `build` returns normally, prints the
directory-missing message asking to generate the project first, and its
trace contains no subprocess invocation and no directory creation. -/
theorem c6_build_dir_missing (env : Env) (nm b g : String) (p : Preset)
    (hr : read_preset_data env "CMakePresets.json" nm = .ok p)
    (hg : pyLower ((pget p "generator").getD "Ninja") = g)
    (hb : (pget p "binaryDir").getD "build" = b)
    (hd : env.dirExists b = false) :
    (build env nm).2 = .ok () ∧
    Effect.print s!"Error: Build directory '{b}' does not exist. Please generate the project first."
      ∈ (build env nm).1 ∧
    ∀ e ∈ (build env nm).1, (∀ cmd ch, e ≠ .subproc cmd ch) ∧ (∀ d, e ≠ .mkdir d) := by
  have hB : build env nm =
      ([.print s!"Using generator '{g}' and build directory '{b}' from preset '{nm}'.",
        .print s!"Error: Build directory '{b}' does not exist. Please generate the project first."],
       .ok ()) := by
    simp only [build, hr, hg, hb, hd]
    simp
  refine ⟨by simp [hB], by simp [hB], ?_⟩
  intro e he
  rw [hB] at he
  simp only [List.mem_cons, List.mem_singleton, List.not_mem_nil, or_false] at he
  rcases he with h | h <;> subst h <;> exact ⟨fun _ _ => by simp, fun _ => by simp⟩

/-- C6 witness: the claim's own scenario — document
`{"configurePresets":[{"name":"dbg","binaryDir":"out/dbg"}]}` with
`out/dbg` absent. -/
theorem c6_build_dir_missing_witness :
    (build envDirMissing "dbg").2 = .ok () ∧
    Effect.print "Error: Build directory 'out/dbg' does not exist. Please generate the project first."
      ∈ (build envDirMissing "dbg").1 :=
  ⟨(c6_build_dir_missing envDirMissing "dbg" "out/dbg" "ninja"
      [("name", "dbg"), ("binaryDir", "out/dbg")] rfl rfl rfl rfl).1,
   (c6_build_dir_missing envDirMissing "dbg" "out/dbg" "ninja"
      [("name", "dbg"), ("binaryDir", "out/dbg")] rfl rfl rfl rfl).2.1⟩

/-- C9: `run` never consults any subprocess exit status (replacing the
whole exit-status oracle leaves its behaviour unchanged, so its outcome
after a non-zero child exit equals its outcome after a zero one), and on
a successful resolution it ends normally having invoked the resolved
binary as a `check`-less subprocess. -/
theorem c9_run_ignores_child_exit :
    (∀ (env : Env) (f : List String → Int) (nm : String) (exe : Option String),
        run { env with subprocExit := f } nm exe = run env nm exe) ∧
    (∀ (env : Env) (nm exe : String) (p : Preset),
        read_preset_data env "CMakePresets.json" nm = .ok p →
        env.dirExists ((pget p "binaryDir").getD "build") = true →
        falsy (some exe) = false →
        env.isFile exe = true →
        (run env nm (some exe)).2 = .ok () ∧
        Effect.subproc [exe] false ∈ (run env nm (some exe)).1) := by
  constructor
  · intro env f nm exe
    rfl
  · intro env nm exe p hr hd hf hfi
    have hR : run env nm (some exe) =
        ([.checkFile exe,
          .print s!"Running target executable: {exe}...", .print "\n\n\n",
          .subproc [exe] false], .ok ()) := by
      simp only [run, hr, hd, runResolvedTail, resolveTargetExe, hf, hfi]
      simp [hfi]
    simp [hR]

/-- C9 witness: the two parts at concrete worlds — exchanging an
exit-status oracle returning 7, and a concrete successful run. -/
theorem c9_run_ignores_child_exit_witness :
    run { envDirMissing with subprocExit := fun _ => 7 } "dbg" none = run envDirMissing "dbg" none ∧
    (run envAllOk "a" (some "bin/app")).2 = .ok () ∧
    Effect.subproc ["bin/app"] false ∈ (run envAllOk "a" (some "bin/app")).1 :=
  ⟨c9_run_ignores_child_exit.1 envDirMissing (fun _ => 7) "dbg" none,
   (c9_run_ignores_child_exit.2 envAllOk "a" "bin/app" [("name", "a")] rfl rfl rfl rfl).1,
   (c9_run_ignores_child_exit.2 envAllOk "a" "bin/app" [("name", "a")] rfl rfl rfl rfl).2⟩

/-- C5 counterexample: when the preset document is missing, the
generate/configure lookup prints and then calls `sys.exit(1)` — the
DocumentNotFound failure IS fatal to the process there, refuting the
claim that every failure returns normally and none is fatal. -/
theorem c5_failure_reporting_counterexample :
    (find_cmake_presets envDocMissing "CMakePresets.json" "a").2 = .exit 1 ∧
    (generate_and_build envDocMissing "a" true).2 = .exit 1 ∧
    Effect.print "Error: CMakePresets.json not found!" ∈ (generate_and_build envDocMissing "a" true).1 := by
  decide

/-- C5 amended: `build`, `run` and `build-run` print a message and return
normally on document-missing, parse-error and preset-not-found failures
(their reader raises and the caller catches); but `find_cmake_presets`
(generate/configure) exits the process on a missing document, propagates
the parse error uncaught, and a failing build subprocess (or an
unsupported generator in generate) raises out of the operation. -/
theorem c5_failure_reporting_amended :
    (∀ (env : Env) (nm : String) (exe : Option String), env.presetsFile = none →
      (build env nm).2 = .ok () ∧
      Effect.print "Error: CMakePresets.json not found." ∈ (build env nm).1 ∧
      (run env nm exe).2 = .ok () ∧
      (build_and_run env nm exe).2 = .ok () ∧
      (find_cmake_presets env "CMakePresets.json" nm).2 = .exit 1) ∧
    (∀ (env : Env) (nm : String) (exe : Option String), env.presetsFile = some none →
      (build env nm).2 = .ok () ∧ (run env nm exe).2 = .ok () ∧
      (build_and_run env nm exe).2 = .ok () ∧
      (find_cmake_presets env "CMakePresets.json" nm).2 = .raised .jsonDecodeError) ∧
    (∀ (env : Env) (nm : String) (exe : Option String) (doc : PresetDocument),
      env.presetsFile = some (some doc) →
      readScan (doc.configurePresets.getD []) nm = none →
      (build env nm).2 = .ok () ∧ (run env nm exe).2 = .ok () ∧
      (build_and_run env nm exe).2 = .ok ()) ∧
    (build envBuildFail "a").2 = .raised .calledProcessError ∧
    (generate_and_build envMulti "a" false).2 =
      .raised (.valueError "Unsupported generator 'Ninja Multi-Config'. Please use Ninja or Makefiles.") := by
  refine ⟨?_, ?_, ?_, by decide, by decide⟩
  · intro env nm exe h
    simp [build, run, build_and_run, read_preset_data, find_cmake_presets, h,
      caughtByReaders, excText]
    decide
  · intro env nm exe h
    simp [build, run, build_and_run, read_preset_data, find_cmake_presets, h,
      caughtByReaders, excText]
  · intro env nm exe doc h hscan
    simp [build, run, build_and_run, read_preset_data, h, hscan, caughtByReaders, excText]

/-- C5 witness: the amended theorem's first part at the world with no
preset document. -/
theorem c5_failure_reporting_witness :
    (build envDocMissing "a").2 = .ok () ∧
    Effect.print "Error: CMakePresets.json not found." ∈ (build envDocMissing "a").1 ∧
    (run envDocMissing "a" none).2 = .ok () ∧
    (build_and_run envDocMissing "a" none).2 = .ok () ∧
    (find_cmake_presets envDocMissing "CMakePresets.json" "a").2 = .exit 1 :=
  c5_failure_reporting_amended.1 envDocMissing "a" none rfl

theorem pget_withNinjaDefault_other (p : Preset) (k : String) (hk : (k == "generator") = false) :
    pget (withNinjaDefault p) k = pget p k := by
  cases hp : pget p k with
  | some x => exact pget_append_some _ hp
  | none =>
    rw [withNinjaDefault, pget_append_none _ hp]
    simp [pget, List.lookup, hk]

theorem pget_withNinjaDefault_generator (p : Preset) (hg : pget p "generator" = none) :
    pget (withNinjaDefault p) "generator" = some "Ninja" := by
  rw [withNinjaDefault, pget_append_none _ hg]
  simp [pget, List.lookup]

/-- C7: a preset with no `generator` field behaves exactly as though it
declared `generator = "Ninja"`, both in `build` and in the build step of
generate/configure; in particular `build` then invokes the ninja-family
driver on the resolved directory. -/
theorem c7_generator_defaults_to_ninja (p : Preset) (cl : Option (List String))
    (de fi : String → Bool) (sx : List String → Int) (nm : String) (ecc : Bool)
    (hg : pget p "generator" = none) (hn : pget p "name" = some nm) :
    build (envWithPreset p cl de fi sx) nm =
      build (envWithPreset (withNinjaDefault p) cl de fi sx) nm ∧
    generate_and_build (envWithPreset p cl de fi sx) nm ecc =
      generate_and_build (envWithPreset (withNinjaDefault p) cl de fi sx) nm ecc ∧
    (de ((pget p "binaryDir").getD "build") = true →
      Effect.subproc ["ninja", "-C", (pget p "binaryDir").getD "build"] true
        ∈ (build (envWithPreset p cl de fi sx) nm).1) := by
  have hn2 : pget (withNinjaDefault p) "name" = some nm := pget_append_some _ hn
  have hg2 : pget (withNinjaDefault p) "generator" = some "Ninja" :=
    pget_withNinjaDefault_generator p hg
  have hb2 : pget (withNinjaDefault p) "binaryDir" = pget p "binaryDir" :=
    pget_withNinjaDefault_other p "binaryDir" (by decide)
  have hd2 : pget (withNinjaDefault p) "buildDir" = pget p "buildDir" :=
    pget_withNinjaDefault_other p "buildDir" (by decide)
  refine ⟨?_, ?_, ?_⟩
  · simp only [build,
      read_envWithPreset p cl de fi sx nm hn,
      read_envWithPreset (withNinjaDefault p) cl de fi sx nm hn2]
    simp only [hg, hg2, hb2, Option.getD_none, Option.getD_some, envWithPreset]
  · simp only [generate_and_build,
      find_envWithPreset p cl de fi sx nm hn,
      find_envWithPreset (withNinjaDefault p) cl de fi sx nm hn2]
    simp only [hg, hg2, hd2, Option.getD_none, Option.getD_some, envWithPreset,
      (by decide : pyLower "Ninja" = "ninja")]
    simp
  · intro hdir
    simp only [build, read_envWithPreset p cl de fi sx nm hn]
    simp only [hg, Option.getD_none, envWithPreset, hdir,
      (by decide : pyLower "Ninja" = "ninja"),
      (by decide : pyIn "ninja" "ninja" = true)]
    split_ifs <;> simp_all

/-- C7 witness: the preset `{"name":"dbg"}` with an existing default build
directory — `build` behaves as with `generator = "Ninja"` and invokes the
ninja driver on `build`. -/
theorem c7_generator_defaults_to_ninja_witness :
    build (envWithPreset [("name", "dbg")] none (fun _ => true) (fun _ => true) (fun _ => 0)) "dbg" =
      build (envWithPreset (withNinjaDefault [("name", "dbg")]) none (fun _ => true) (fun _ => true)
        (fun _ => 0)) "dbg" ∧
    Effect.subproc ["ninja", "-C", "build"] true ∈
      (build (envWithPreset [("name", "dbg")] none (fun _ => true) (fun _ => true) (fun _ => 0)) "dbg").1 :=
  ⟨(c7_generator_defaults_to_ninja [("name", "dbg")] none (fun _ => true) (fun _ => true)
      (fun _ => 0) "dbg" false rfl rfl).1,
   (c7_generator_defaults_to_ninja [("name", "dbg")] none (fun _ => true) (fun _ => true)
      (fun _ => 0) "dbg" false rfl rfl).2.2 rfl⟩

/-- C8: whenever the build phase of `build_and_run` fails — the preset
reader raises (document missing, parse error, or preset not found), the
build directory is missing, the generator matches neither family, or the
build subprocess exits non-zero — the trace contains no run-resolution
effect: the project descriptor is never opened, no candidate executable is
checked, and no `check`-less (target-binary) subprocess is invoked. -/
theorem c8_build_failure_short_circuits_run (env : Env) (nm : String) (exe : Option String) :
    (∀ e, read_preset_data env "CMakePresets.json" nm = .raised e →
      ∀ ef ∈ (build_and_run env nm exe).1, runPhaseEffect ef = false) ∧
    (∀ p, read_preset_data env "CMakePresets.json" nm = .ok p →
      (env.dirExists ((pget p "binaryDir").getD "build") = false →
        ∀ ef ∈ (build_and_run env nm exe).1, runPhaseEffect ef = false) ∧
      (pyIn "ninja" (pyLower ((pget p "generator").getD "Ninja")) = false →
        pyIn "make" (pyLower ((pget p "generator").getD "Ninja")) = false →
        ∀ ef ∈ (build_and_run env nm exe).1, runPhaseEffect ef = false) ∧
      (env.dirExists ((pget p "binaryDir").getD "build") = true →
        pyIn "ninja" (pyLower ((pget p "generator").getD "Ninja")) = true →
        env.subprocExit ["ninja", "-C", (pget p "binaryDir").getD "build"] ≠ 0 →
        ∀ ef ∈ (build_and_run env nm exe).1, runPhaseEffect ef = false) ∧
      (env.dirExists ((pget p "binaryDir").getD "build") = true →
        pyIn "ninja" (pyLower ((pget p "generator").getD "Ninja")) = false →
        pyIn "make" (pyLower ((pget p "generator").getD "Ninja")) = true →
        env.subprocExit ["make", "-C", (pget p "binaryDir").getD "build"] ≠ 0 →
        ∀ ef ∈ (build_and_run env nm exe).1, runPhaseEffect ef = false)) := by
  constructor
  · intro e he ef hef
    simp only [build_and_run, he] at hef
    cases hc : caughtByReaders e <;> simp [hc] at hef
    subst hef
    rfl
  · intro p hp
    refine ⟨?_, ?_, ?_, ?_⟩
    · intro hd ef hef
      simp only [build_and_run, hp, hd] at hef
      simp at hef
      rcases hef with h | h <;> subst h <;> rfl
    · intro h1 h2 ef hef
      simp only [build_and_run, hp, h1, h2] at hef
      cases hd : env.dirExists ((pget p "binaryDir").getD "build") with
      | false =>
        simp [hd] at hef
        rcases hef with h | h <;> subst h <;> rfl
      | true =>
        simp [hd] at hef
        rcases hef with h | h <;> subst h <;> rfl
    · intro hd h1 hx ef hef
      simp only [build_and_run, hp, hd, h1, hx] at hef
      simp [hx] at hef
      rcases hef with h | h | h <;> subst h <;> rfl
    · intro hd h1 h2 hx ef hef
      simp only [build_and_run, hp, hd, h1, h2, hx] at hef
      simp [hx] at hef
      rcases hef with h | h | h <;> subst h <;> rfl

/-- C8 witness: with the document missing, the only effect of
`build_and_run` is the error message, which is not a run-phase effect. -/
theorem c8_build_failure_short_circuits_run_witness :
    runPhaseEffect (.print "Error: CMakePresets.json not found.") = false :=
  (c8_build_failure_short_circuits_run envDocMissing "dbg" none).1
    (.fileNotFoundError "CMakePresets.json not found.") rfl
    (.print "Error: CMakePresets.json not found.") (by decide)

theorem mergeDicts_addr (ov : YVal) : ∀ (st : Store) (a : Nat) (out : Store × Nat),
    merge_dicts st a ov = some out → out.2 = a := by
  induction ov with
  | prim s =>
    intro st a out h
    simp [merge_dicts] at h
  | dnil =>
    intro st a out h
    simp only [merge_dicts, Option.some.injEq] at h
    subst h
    rfl
  | dcons k v rest ihv ihrest =>
    intro st a out h
    simp only [merge_dicts] at h
    cases hsta : st a with
    | none => simp only [hsta] at h; simp at h
    | some d =>
      simp only [hsta] at h
      by_cases hguard : (v.isDict && (d.lookup k).isSome) = true
      · rw [if_pos hguard] at h
        cases hlk : d.lookup k with
        | none =>
          simp only [hlk] at h
          by_cases hv : v = .dnil
          · rw [if_pos hv] at h; exact ihrest _ _ _ h
          · rw [if_neg hv] at h; simp at h
        | some val =>
          cases val with
          | ref a2 =>
            simp only [hlk] at h
            cases hm : merge_dicts st a2 v with
            | none => simp only [hm] at h; simp at h
            | some r =>
              simp only [hm] at h
              obtain ⟨st2, ra⟩ := r
              cases hst2 : st2 a with
              | none => simp only [hst2] at h; simp at h
              | some d2 =>
                simp only [hst2] at h
                exact ihrest _ _ _ h
          | prim s =>
            simp only [hlk] at h
            by_cases hv : v = .dnil
            · rw [if_pos hv] at h; exact ihrest _ _ _ h
            · rw [if_neg hv] at h; simp at h
          | fresh w =>
            simp only [hlk] at h
            by_cases hv : v = .dnil
            · rw [if_pos hv] at h; exact ihrest _ _ _ h
            · rw [if_neg hv] at h; simp at h
      · rw [if_neg hguard] at h
        cases v with
        | prim s => exact ihrest _ _ _ h
        | dnil => exact ihrest _ _ _ h
        | dcons k2 v2 r2 => exact ihrest _ _ _ h

/-- C10: `merge_dicts` returns the very dict object it was given as its
first argument (it mutates it in place), and `load_config` with an
existing, parseable user file therefore updates the process-wide
`DEFAULT_CONFIG` object: it returns `DEFAULT_CONFIG`'s own address, and
after the call a read through `DEFAULT_CONFIG` of
`cmake.default_generator` observes the user's `"Make"` where the initial
heap held `"Ninja"`. -/
theorem c10_merge_mutates_default_config :
    (∀ (ov : YVal) (st : Store) (a : Nat) (out : Store × Nat),
      merge_dicts st a ov = some out → out.2 = a) ∧
    (load_config DEFAULT_CONFIG_store (.parsed userOverride)).map (fun r => r.2.1) =
      some DEFAULT_CONFIG_addr ∧
    ((load_config DEFAULT_CONFIG_store (.parsed userOverride)).bind
        (fun r => r.1 DEFAULT_CONFIG_addr)).map (fun d => d.lookup "cmake") =
      some (some (.ref 2)) ∧
    ((load_config DEFAULT_CONFIG_store (.parsed userOverride)).bind
        (fun r => r.1 2)).map (fun d => d.lookup "default_generator") =
      some (some (.prim "Make")) ∧
    (DEFAULT_CONFIG_store 2).map (fun d => d.lookup "default_generator") =
      some (some (.prim "Ninja")) :=
  ⟨fun ov => mergeDicts_addr ov, rfl, rfl, rfl, rfl⟩

/-- C10 witness: the in-place part of the theorem at a one-entry override
merged into an empty dict at address 7 — the returned object is address 7. -/
theorem c10_merge_mutates_default_config_witness :
    ((storeSet (fun _ => some []) 7 (dictSet [] "k" (.prim "v")), 7) : Store × Nat).2 = 7 :=
  c10_merge_mutates_default_config.1 (.dcons "k" (.prim "v") .dnil) (fun _ => some []) 7
    (storeSet (fun _ => some []) 7 (dictSet [] "k" (.prim "v")), 7) rfl

end CppForge
